import Mathlib

/-!
Verification development for `snark_linter.py`, a single-file Python linter.
The linter parses a source file, walks its AST with an `ast.NodeVisitor`
subclass (`SnarkLinter`), runs three line/token based passes
(`find_comment_issues`, `find_line_length_issues`, `find_import_issues`),
concatenates the findings and stably sorts them by line number
(`run_snark_linter`).

The shallow embedding below translates each Python function into a Lean
function.  Python library calls whose outputs the linter consumes
(`ast.parse`, `tokenize.tokenize`, text-mode line iteration) are modelled as
fields of a `SourceFile` record holding their results; the Python library
functions the linter calls on data (`inspect.cleandoc`, `str.strip`,
`str.expandtabs`, `str.split`, `re` matching of the two concrete regexes)
are embedded faithfully.  Character predicates are modelled on the ASCII
range (the regexes in the source use explicit ASCII classes; names produced
by the Python parser are identifiers and contain no newline).
-/

/-- A reported issue: the Python code builds `(lineno, message)` pairs. -/
structure Finding where
  line : Nat
  message : String
deriving Repr, DecidableEq

/-- Python whitespace membership for the ASCII whitespace characters
(space, tab, newline, carriage return, vertical tab, form feed). -/
def pyIsSpace (c : Char) : Bool :=
  c == ' ' || c == '\t' || c == '\n' || c == '\r' || c == '\x0b' || c == '\x0c'

/-- Python `str.lstrip()` (no argument: strip leading whitespace). -/
def pyLstrip (s : String) : String :=
  ⟨s.data.dropWhile pyIsSpace⟩

/-- Python `str.strip()` (no argument: strip whitespace from both ends). -/
def pyStrip (s : String) : String :=
  ⟨((s.data.dropWhile pyIsSpace).reverse.dropWhile pyIsSpace).reverse⟩

/-- Python `line.rstrip(chr(10))`: strip only newline characters from the
right end of the string. -/
def pyRstripNl (s : String) : String :=
  ⟨(s.data.reverse.dropWhile (fun c => c == '\n')).reverse⟩

/-- Boolean test that `p` is a prefix of `s` (Python `str.startswith`,
list form). -/
def leadsWith : List Char → List Char → Bool
  | [], _ => true
  | _ :: _, [] => false
  | a :: as, b :: bs => a == b && leadsWith as bs

/-- Python `s.split(sep, maxsplit := 1)` for a non-empty separator, returning
the two pieces around the leftmost occurrence, or `none` when the separator
does not occur. -/
def pySplitOnce : List Char → List Char → Option (List Char × List Char)
  | s, pat =>
    if leadsWith pat s then some ([], s.drop pat.length)
    else
      match s with
      | [] => none
      | c :: rest =>
        match pySplitOnce rest pat with
        | some (a, b) => some (c :: a, b)
        | none => none

/-- Python `str.expandtabs()` with the default tab size 8, character-list
worker carrying the current column. -/
def pyExpandtabsAux : List Char → Nat → List Char
  | [], _ => []
  | c :: cs, col =>
    if c == '\t' then
      let fill := 8 - col % 8
      List.replicate fill ' ' ++ pyExpandtabsAux cs (col + fill)
    else if c == '\n' || c == '\r' then
      c :: pyExpandtabsAux cs 0
    else
      c :: pyExpandtabsAux cs (col + 1)

/-- Python `str.expandtabs()` with the default tab size 8. -/
def pyExpandtabs (s : String) : String :=
  ⟨pyExpandtabsAux s.data 0⟩

/-- Python `str.split(chr(10))`: split on every newline, keeping empty
pieces; always returns a non-empty list. -/
def splitNl : List Char → List (List Char)
  | [] => [[]]
  | c :: cs =>
    if c == '\n' then [] :: splitNl cs
    else
      match splitNl cs with
      | [] => [[c]]
      | p :: ps => (c :: p) :: ps

/-- Join with newlines (Python `chr(10).join(lines)`). -/
def joinNl : List (List Char) → List Char
  | [] => []
  | [l] => l
  | l :: ls => l ++ '\n' :: joinNl ls

/-- The margin computation of `inspect.cleandoc`: the minimum indentation of
the non-blank lines, or `none` when every line is blank (the Python code
uses `sys.maxsize` as the "no margin" sentinel). -/
def cleandocMargin : List (List Char) → Option Nat
  | [] => none
  | line :: rest =>
    let content := line.dropWhile pyIsSpace
    let m := cleandocMargin rest
    if content.length > 0 then
      let indent := line.length - content.length
      match m with
      | none => some indent
      | some k => some (min k indent)
    else m

/-- Drop trailing empty lines (the Python loop popping `lines[-1]` while it
is falsy). -/
def dropTrailingBlank (ls : List (List Char)) : List (List Char) :=
  (ls.reverse.dropWhile List.isEmpty).reverse

/-- `inspect.cleandoc`, as called by `ast.get_docstring(node)` with its
default `clean=True`: expand tabs, split into lines, remove the common
margin of the lines after the first, left-strip the first line, then drop
trailing and leading blank lines and re-join. -/
def pyCleandoc (doc : String) : String :=
  match splitNl (pyExpandtabs doc).data with
  | [] => ""
  | first :: rest =>
    let margin := cleandocMargin rest
    let rest :=
      match margin with
      | some m => rest.map (List.drop m)
      | none => rest
    let lines := (first.dropWhile pyIsSpace) :: rest
    let lines := dropTrailingBlank lines
    let lines := lines.dropWhile List.isEmpty
    ⟨joinNl lines⟩

/-- The source regex `CAPWORDS_REGEX`, whose pattern text is
`^[A-Z][a-zA-Z0-9]+(?:[A-Z0-9][a-zA-Z0-9]*)*$`.  A string is accepted by
that pattern exactly when it has at least two characters, the first is an
ASCII uppercase letter and every later character is ASCII alphanumeric: any
match of the mandatory `[A-Z][a-zA-Z0-9]+` part with zero iterations of the
optional group has that shape, every character the optional group can
consume lies in `[a-zA-Z0-9]` as well, and conversely any string of that
shape is matched with zero iterations of the optional group.  Note the `+`:
unlike `[A-Z][A-Za-z0-9]*`, a single uppercase letter is rejected. -/
def CAPWORDS_REGEX_match (s : String) : Bool :=
  match s.data with
  | c :: d :: rest => c.isUpper && d.isAlphanum && rest.all (fun e => e.isAlphanum)
  | _ => false

/-- The pattern the specification document states for type names,
`^[A-Z][A-Za-z0-9]*$`, read off the spec text "starts with uppercase,
alphanumeric thereafter, no underscores".  Declared for comparison with the
source regex `CAPWORDS_REGEX_match`; not part of the program. -/
def specCapWordsMatch (s : String) : Bool :=
  match s.data with
  | c :: rest => c.isUpper && rest.all (fun e => e.isAlphanum)
  | [] => false

/-- The source regex `SNAKE_CASE_REGEX`, pattern `^[a-z_][a-z0-9_]*$`. -/
def SNAKE_CASE_REGEX_match (s : String) : Bool :=
  match s.data with
  | c :: rest =>
    (c.isLower || c == '_') && rest.all (fun e => e.isLower || e.isDigit || e == '_')
  | [] => false

/-- Python `str.isalpha()` on the ASCII range: non-empty and all letters. -/
def pyIsalpha (s : String) : Bool :=
  !s.data.isEmpty && s.data.all Char.isAlpha

/-- Message of the class-naming rule in `visit_ClassDef`. -/
def classNameMsg (name : String) (lineno : Nat) : String :=
  "Class \x27" ++ (name ++ ("\x27 at line " ++ (toString lineno ++
    " is not in CapWords style. Do you even PEP 8, bro?")))

/-- Message of the class missing-docstring rule in `visit_ClassDef`. -/
def classNoDocMsg (name : String) (lineno : Nat) : String :=
  "Class \x27" ++ (name ++ ("\x27 at line " ++ (toString lineno ++
    " has no docstring. Why bother writing code if no one knows what it does?")))

/-- Message of the unconditional function-existence rule in
`visit_FunctionDef`. -/
def funcExistsMsg (name : String) (lineno : Nat) : String :=
  "Found a function named \x27" ++ (name ++ ("\x27 at line " ++ (toString lineno ++
    ". Is this your attempt at structured programming? How quaint.")))

/-- Message of the function-naming rule in `visit_FunctionDef`. -/
def funcNameMsg (name : String) (lineno : Nat) : String :=
  "Function \x27" ++ (name ++ ("\x27 at line " ++ (toString lineno ++
    " is not snake_case. We only speak underscores around here.")))

/-- Message of the function missing-docstring rule in `visit_FunctionDef`. -/
def funcNoDocMsg (name : String) (lineno : Nat) : String :=
  "Function \x27" ++ (name ++ ("\x27 at line " ++ (toString lineno ++
    " has no docstring. Don\x27t keep secrets from your future self!")))

/-- Message of the docstring length sub-check in `_check_docstring_rules`. -/
def docTooShortMsg (entity : String) (lineno : Nat) (n : Nat) : String :=
  entity ++ (" at line " ++ (toString lineno ++ (" has a docstring with only " ++
    (toString n ++ " characters. That\x27s barely a grunt, not a docstring."))))

/-- Message of the docstring capital-letter sub-check in
`_check_docstring_rules`. -/
def docCapMsg (entity : String) (lineno : Nat) : String :=
  entity ++ (" at line " ++ (toString lineno ++
    (" has a docstring that doesn\x27t start with a capital letter. " ++
     "Where\x27s your sense of grammar?")))

/-- Message of the docstring punctuation sub-check in
`_check_docstring_rules`. -/
def docEndMsg (entity : String) (lineno : Nat) : String :=
  entity ++ (" at line " ++ (toString lineno ++
    " has a docstring that doesn\x27t end with punctuation. Finish your sentence, please."))

/-- Message of the single-letter-variable rule in `visit_Assign`. -/
def singleLetterMsg (var_name : String) (lineno : Nat) : String :=
  "Single-letter variable \x27" ++ (var_name ++ ("\x27 at line " ++ (toString lineno ++
    ". Oh sure, I\x27d never guess what it means, but I\x27m sure it\x27s clear to YOU.")))

/-- Message of the nested-loop rule in `visit_For`. -/
def nestedForMsg (lineno : Nat) : String :=
  "Nested loop at line " ++ (toString lineno ++
    ". You do realize we invented break and return statements, right?")

/-- Message of the nested-loop rule in `visit_While`. -/
def nestedWhileMsg (lineno : Nat) : String :=
  "Nested loop at line " ++ (toString lineno ++
    ". Yikes, a while loop inside another loop? Are you allergic to simplicity?")

/-- Message of the long-comment branch in `find_comment_issues`. -/
def commentLongMsg (line_num : Nat) (n : Nat) : String :=
  "This comment at line " ++ (toString line_num ++ (" is " ++ (toString n ++
    " characters long. Way to kill the readability. 72 was too short for you?")))

/-- Message of the short-comment branch in `find_comment_issues`. -/
def commentExtraMsg (line_num : Nat) (comment_text : String) : String :=
  "Extraneous comment at line " ++ (toString line_num ++
    (". Real developers keep it all in their heads: " ++ comment_text))

/-- Message of the over-long comment line branch in
`find_line_length_issues`. -/
def lineLongCommentMsg (line_no : Nat) (n : Nat) : String :=
  "Line " ++ (toString line_no ++ (" has " ++ (toString n ++
    " characters in a comment. 72 is the limit, but apparently your brilliance needed more space?")))

/-- Message of the over-long code line branch in `find_line_length_issues`. -/
def lineLongMsg (line_no : Nat) (n : Nat) : String :=
  "Line " ++ (toString line_no ++ (" has " ++ (toString n ++
    " characters. Trying to write the next War and Peace in one line?")))

/-- Message of the comma-after-import branch in `find_import_issues`. -/
def multiImportMsg (line_no : Nat) : String :=
  "Multiple imports on one line at " ++ (toString line_no ++
    ". You think we can read two modules in one breath?")

/-- Message of the comma-in-from-import branch in `find_import_issues`. -/
def multiImportFromMsg (line_no : Nat) : String :=
  "Multiple imports on one line at " ++ (toString line_no ++
    (". One import statement per line, please. " ++
     "Our tiny eyes can\x27t parse multiple."))

/-- Message of the synthetic parse-failure finding in `run_snark_linter`. -/
def parseFailMsg (line_number : Nat) : String :=
  "Wow, syntax error at line " ++ (toString line_number ++
    ". Did you even try to run this code yourself? I can\x27t parse this nonsense.")

/-- Assignment targets, as `visit_Assign` distinguishes them: the code only
inspects `ast.Name` targets (`isinstance(target, ast.Name)` with the
identifier in `target.id`); attribute, subscript, starred and tuple targets
fail that test and are skipped (their element names are never examined). -/
inductive AssignTarget where
  | nameT (id : String)
  | attributeT
  | subscriptT
  | starredT
  | tupleT (elts : List AssignTarget)
deriving Repr

/-- Statement nodes of the parsed tree, covering exactly the node kinds the
`SnarkLinter` visitor distinguishes.  `ast.NodeVisitor.visit` dispatches on
the node class name: `SnarkLinter` defines `visit_ClassDef`,
`visit_FunctionDef`, `visit_Assign`, `visit_For` and `visit_While`; every
other statement kind (including `AsyncFunctionDef` and `AsyncFor`, for which
no `visit_…` method exists) receives the default `generic_visit`, which only
recurses into the child statements — `other` models all of those, and
`asyncFunctionDef` is kept as its own constructor because the claims speak
about routine definitions.  The `doc` field of a definition holds the
leading string literal of its body when the first statement is a string
constant expression (the literal that `ast.get_docstring` reads); the
`Expr` node of the literal itself triggers no visitor rule, so it carries
no other information.  Loop `body` lists contain the statements `generic_visit`
reaches (body and else-branch); expression children contain no statements
and trigger no rules, so they are not represented. -/
inductive Node where
  | classDef (name : String) (lineno : Nat) (doc : Option String) (body : List Node)
  | functionDef (name : String) (lineno : Nat) (doc : Option String) (body : List Node)
  | asyncFunctionDef (name : String) (lineno : Nat) (doc : Option String) (body : List Node)
  | assign (lineno : Nat) (targets : List AssignTarget)
  | forStmt (lineno : Nat) (body : List Node)
  | whileStmt (lineno : Nat) (body : List Node)
  | other (body : List Node)
deriving Repr

/-- `ast.get_docstring(node)`: `None` when the body does not start with a
string literal, otherwise the literal text cleaned by `inspect.cleandoc`. -/
def get_docstring (leading : Option String) : Option String :=
  leading.map pyCleandoc

/-- Python truthiness test `not docstring` applied to the result of
`ast.get_docstring`: true for `None` and for the empty string. -/
def pyFalsyStr : Option String → Bool
  | none => true
  | some t => t == ""

/-- The mutable state of one `SnarkLinter` run: `self.issues` and
`self.loop_depth`. -/
structure LState where
  issues : List Finding
  loop_depth : Nat
deriving Repr, DecidableEq

/-- `SnarkLinter._check_docstring_rules(docstring, lineno, entity_name)`:
appends up to three findings (length, leading capital, trailing
punctuation) to the issue list.  Only called with a non-empty docstring
(`docstring[0]` and `docstring[-1]` are the head and last character). -/
def check_docstring_rules (docstring : String) (lineno : Nat) (entity_name : String)
    (issues : List Finding) : List Finding :=
  let issues :=
    if docstring.length < 10 then
      issues ++ [⟨lineno, docTooShortMsg entity_name lineno docstring.length⟩]
    else issues
  let issues :=
    if !(docstring.data.headD 'A').isUpper then
      issues ++ [⟨lineno, docCapMsg entity_name lineno⟩]
    else issues
  let issues :=
    if !(['.', '!', '?'].contains (docstring.data.getLastD 'A')) then
      issues ++ [⟨lineno, docEndMsg entity_name lineno⟩]
    else issues
  issues

/-- `SnarkLinter.visit_ClassDef`, without the trailing `generic_visit`
(the caller descends into the body). -/
def visit_ClassDef (name : String) (lineno : Nat) (doc : Option String)
    (s : LState) : LState :=
  let issues :=
    if !CAPWORDS_REGEX_match name then s.issues ++ [⟨lineno, classNameMsg name lineno⟩]
    else s.issues
  let docstring := get_docstring doc
  let issues :=
    if pyFalsyStr docstring then issues ++ [⟨lineno, classNoDocMsg name lineno⟩]
    else
      check_docstring_rules (docstring.getD "") lineno
        ("Class \x27" ++ (name ++ "\x27")) issues
  { s with issues := issues }

/-- `SnarkLinter.visit_FunctionDef`, without the trailing `generic_visit`
(the caller descends into the body). -/
def visit_FunctionDef (name : String) (lineno : Nat) (doc : Option String)
    (s : LState) : LState :=
  let issues := s.issues ++ [⟨lineno, funcExistsMsg name lineno⟩]
  let issues :=
    if !SNAKE_CASE_REGEX_match name then issues ++ [⟨lineno, funcNameMsg name lineno⟩]
    else issues
  let docstring := get_docstring doc
  let issues :=
    if pyFalsyStr docstring then issues ++ [⟨lineno, funcNoDocMsg name lineno⟩]
    else
      check_docstring_rules (docstring.getD "") lineno
        ("Function \x27" ++ (name ++ "\x27")) issues
  { s with issues := issues }

/-- The per-target test of `SnarkLinter.visit_Assign`: an `ast.Name` target
whose identifier has length one and is alphabetic yields a finding. -/
def assign_target_issue (lineno : Nat) : AssignTarget → Option Finding
  | .nameT id =>
    if id.length == 1 && pyIsalpha id then some ⟨lineno, singleLetterMsg id lineno⟩
    else none
  | _ => none

/-- `SnarkLinter.visit_Assign`: inspects every element of `node.targets`;
the trailing `generic_visit` reaches only expression nodes, which fire no
rules. -/
def visit_Assign (lineno : Nat) (targets : List AssignTarget) (s : LState) : LState :=
  { s with issues := s.issues ++ targets.filterMap (assign_target_issue lineno) }

mutual

/-- `SnarkLinter.visit`: dispatch on the node kind, mirroring
`ast.NodeVisitor` method lookup.  For `For`/`While` the depth counter is
incremented, the nested-loop finding fired when the new depth exceeds 1,
the body visited, and the counter decremented afterwards (the code has no
`try`/`finally`; none of the rules can raise, so the decrement is the
single exit path).  `AsyncFunctionDef` and `other` nodes get
`generic_visit` only. -/
def visitNode (s : LState) : Node → LState
  | .classDef name lineno doc body => visitList (visit_ClassDef name lineno doc s) body
  | .functionDef name lineno doc body => visitList (visit_FunctionDef name lineno doc s) body
  | .asyncFunctionDef _ _ _ body => visitList s body
  | .assign lineno targets => visit_Assign lineno targets s
  | .forStmt lineno body =>
    let d := s.loop_depth + 1
    let issues :=
      if d > 1 then s.issues ++ [⟨lineno, nestedForMsg lineno⟩] else s.issues
    let s1 := visitList ⟨issues, d⟩ body
    { s1 with loop_depth := s1.loop_depth - 1 }
  | .whileStmt lineno body =>
    let d := s.loop_depth + 1
    let issues :=
      if d > 1 then s.issues ++ [⟨lineno, nestedWhileMsg lineno⟩] else s.issues
    let s1 := visitList ⟨issues, d⟩ body
    { s1 with loop_depth := s1.loop_depth - 1 }
  | .other body => visitList s body

/-- `generic_visit` over a list of child statements, left to right. -/
def visitList (s : LState) : List Node → LState
  | [] => s
  | n :: rest => visitList (visitNode s n) rest

end

/-- The AST pass of `run_snark_linter`: construct the linter with empty
issues and zero loop depth, visit the module tree (a `Module` node has no
visitor method, so its statement list is visited), and read off
`linter.issues`. -/
def runLinter (tree : List Node) : List Finding :=
  (visitList ⟨[], 0⟩ tree).issues


/-- A lexical token as `find_comment_issues` consumes it: the pass looks at
`token.type == tokenize.COMMENT` (`isComment`), `token.start[0]`
(`startLine`) and `token.string`. -/
structure Token where
  isComment : Bool
  startLine : Nat
  string : String
deriving Repr

/-- The structured parse error `ast.parse` raises on bad syntax:
`SyntaxError.lineno` is `None` or the 1-based error line. -/
structure ParseError where
  lineno : Option Nat
deriving Repr

/-- A source file, seen through the library calls the linter makes on it:
the result of `ast.parse` on its text, the result of `tokenize.tokenize` on
its bytes (which the code iterates with no exception handler — a failure is
an `.error`), and the physical lines that text-mode iteration yields (each
ending in a newline except possibly the last). -/
structure SourceFile where
  parseResult : Except ParseError (List Node)
  tokens : Except String (List Token)
  lines : List String

/-- The per-token body of the loop in `find_comment_issues`. -/
def comment_issue (token : Token) : Option Finding :=
  if token.isComment then
    let comment_text := pyStrip token.string
    if comment_text.length > 72 then
      some ⟨token.startLine, commentLongMsg token.startLine comment_text.length⟩
    else
      some ⟨token.startLine, commentExtraMsg token.startLine comment_text⟩
  else none

/-- `find_comment_issues(file_path)`: re-tokenizes the file and produces one
finding per comment token.  The `tokenize.tokenize` iteration has no
`try`/`except`, so a tokenizer error propagates to the caller; the partial
issue list built before the error is discarded with the frame. -/
def find_comment_issues (tokens : Except String (List Token)) :
    Except String (List Finding) :=
  match tokens with
  | .error e => .error e
  | .ok toks => .ok (toks.filterMap comment_issue)

/-- The per-line body of the loop in `find_line_length_issues`: strip the
trailing newline, skip blank lines, use limit 72 when the left-trimmed line
starts with a comment marker and 79 otherwise. -/
def line_length_issue : Nat × String → Option Finding
  | (line_no, line) =>
    let raw_line := pyRstripNl line
    if pyStrip raw_line == "" then none
    else if leadsWith [ '#' ] (pyLstrip raw_line).data then
      if raw_line.length > 72 then
        some ⟨line_no, lineLongCommentMsg line_no raw_line.length⟩
      else none
    else
      if raw_line.length > 79 then
        some ⟨line_no, lineLongMsg line_no raw_line.length⟩
      else none

/-- `find_line_length_issues(file_path)`: `enumerate(f, start=1)` over the
physical lines, collecting the per-line findings in order. -/
def find_line_length_issues (lines : List String) : List Finding :=
  (lines.enumFrom 1).filterMap line_length_issue

/-- The per-line body of the loop in `find_import_issues`: a stripped line
beginning with the import keyword and a space fires when a comma occurs
after the keyword; a stripped line beginning with the from keyword fires
when the text after the first occurrence of the padded import keyword
contains a comma. -/
def import_issue : Nat × String → Option Finding
  | (line_no, line) =>
    let stripped := pyStrip line
    if leadsWith ("import ").data stripped.data then
      let after_import := stripped.data.drop 7
      if after_import.contains ',' then some ⟨line_no, multiImportMsg line_no⟩
      else none
    else if leadsWith ("from ").data stripped.data then
      match pySplitOnce stripped.data (" import ").data with
      | some (_, to_import) =>
        if to_import.contains ',' then some ⟨line_no, multiImportFromMsg line_no⟩
        else none
      | none => none
    else none

/-- `find_import_issues(file_path)`: `enumerate(f, start=1)` over the
physical lines, collecting the per-line findings in order. -/
def find_import_issues (lines : List String) : List Finding :=
  (lines.enumFrom 1).filterMap import_issue

/-- Ordered insertion by line number; inserts before the first element whose
line number is not smaller. -/
def insertFinding (f : Finding) : List Finding → List Finding
  | [] => [f]
  | g :: gs => if f.line ≤ g.line then f :: g :: gs else g :: insertFinding f gs

/-- Python `all_issues.sort(key=lambda x: x[0])`: a stable sort by line
number.  Python guarantees its sort stable, and a stable sort by a total
preorder key is extensionally unique, so insertion sort (which keeps an
earlier element before a later one with the same line) computes the same
list. -/
def sortFindings : List Finding → List Finding
  | [] => []
  | f :: fs => insertFinding f (sortFindings fs)

/-- The concatenation `ast_issues + comment_issues + length_issues +
import_issues` built in `run_snark_linter` after a successful parse and
tokenization. -/
def passConcat (src : SourceFile) (tree : List Node) (toks : List Token) :
    List Finding :=
  runLinter tree ++ (toks.filterMap comment_issue ++
    (find_line_length_issues src.lines ++ find_import_issues src.lines))

/-- `run_snark_linter(file_path)` for an existing file.  A `SyntaxError`
from `ast.parse` short-circuits into the single synthetic finding, with
line `e.lineno if e.lineno else 1` (Python truthiness: a missing — or
zero — line number becomes 1).  Otherwise the AST pass runs, then the
comment pass (whose tokenizer error, if any, propagates and aborts the
run), then the two line passes; the concatenated findings are sorted
stably by line. -/
def run_snark_linter (src : SourceFile) : Except String (List Finding) :=
  match src.parseResult with
  | .error e =>
    let line_number := match e.lineno with
      | some l => if l == 0 then 1 else l
      | none => 1
    .ok [⟨line_number, parseFailMsg line_number⟩]
  | .ok tree =>
    match find_comment_issues src.tokens with
    | .error e => .error e
    | .ok comment_issues =>
      .ok (sortFindings (runLinter tree ++ (comment_issues ++
        (find_line_length_issues src.lines ++ find_import_issues src.lines))))


/-- Recognizer for the unconditional function-existence finding: its
message is the only visitor message beginning with the text
`Found a function named` followed by a quote (every other visitor message
begins with `Class`, `Function`, `Single-letter variable` or
`Nested loop at line`). -/
def isExistenceFinding (f : Finding) : Bool :=
  leadsWith ("Found a function named \x27").data f.message.data

/-- Number of existence findings in a list. -/
def countEx (l : List Finding) : Nat :=
  (l.filter isExistenceFinding).length

mutual

/-- Number of plain (synchronous) function definitions in a node; async
function definitions are not counted, because `SnarkLinter` has no
`visit_AsyncFunctionDef` method. -/
def countFunctionDefs : Node → Nat
  | .classDef _ _ _ body => countFunctionDefsList body
  | .functionDef _ _ _ body => 1 + countFunctionDefsList body
  | .asyncFunctionDef _ _ _ body => countFunctionDefsList body
  | .assign _ _ => 0
  | .forStmt _ body => countFunctionDefsList body
  | .whileStmt _ body => countFunctionDefsList body
  | .other body => countFunctionDefsList body

/-- Number of plain function definitions in a statement list. -/
def countFunctionDefsList : List Node → Nat
  | [] => 0
  | n :: rest => countFunctionDefs n + countFunctionDefsList rest

end

/-- A source file whose text parses but whose byte stream the tokenizer
rejects.  Such files exist: the text
`# -*- coding: bogus -*-` on line 1 followed by
`value_banana = ` and a 68-digit integer literal on line 2 is accepted by
`ast.parse` (which receives the already-decoded text and treats the cookie
as a plain comment) while `tokenize.tokenize` reads the cookie from the
raw bytes and raises `SyntaxError: unknown encoding: bogus` before
yielding any token.  Line 2 has 83 characters, so the line-length pass
alone would report it. -/
def srcTokFail : SourceFile where
  parseResult := .ok [.assign 2 [.nameT ("value_banana")]]
  tokens := .error ("unknown encoding: bogus")
  lines := ["# -*- coding: bogus -*-\n",
            "value_banana = " ++ (⟨List.replicate 68 '9'⟩ ++ "\n")]

/-- A source file that fails to parse: the text `def broken(:` (one line)
makes `ast.parse` raise a `SyntaxError` with `lineno` 1; the line-length
and import passes would find nothing, and the tokenizer result is never
consulted. -/
def srcParseErr : SourceFile where
  parseResult := .error ⟨some 1⟩
  tokens := .ok []
  lines := ["def broken(:\n"]

/-- The module tree of the well-formed file used to witness the sorted
report: a documented function on line 1 whose body returns on line 3, and
a comment on line 4. -/
def okTree : List Node :=
  [.functionDef ("do_stuff") 1 (some ("Does the stuff.")) [.other []]]

/-- The token list of that file: one comment token on line 4. -/
def okToks : List Token :=
  [⟨true, 4, "# hmm"⟩]

/-- A well-formed source file on which every pass runs: text
`def do_stuff():` / an indented docstring line / `    return 1` / `# hmm`. -/
def srcOk : SourceFile where
  parseResult := .ok okTree
  tokens := .ok okToks
  lines := ["def do_stuff():\n",
            "    \x22\x22\x22Does the stuff.\x22\x22\x22\n",
            "    return 1\n",
            "# hmm\n"]

/-- The line of the synthetic parse-failure finding:
`e.lineno if e.lineno else 1` (Python truthiness maps both `None` and `0`
to 1; `SyntaxError.lineno` is 1-based, so 0 is never reported in
practice). -/
def syntheticLine (e : ParseError) : Nat :=
  match e.lineno with
  | some l => if l == 0 then 1 else l
  | none => 1

theorem visit_ClassDef_depth (name : String) (lineno : Nat) (doc : Option String)
    (s : LState) : (visit_ClassDef name lineno doc s).loop_depth = s.loop_depth := rfl

theorem visit_FunctionDef_depth (name : String) (lineno : Nat) (doc : Option String)
    (s : LState) : (visit_FunctionDef name lineno doc s).loop_depth = s.loop_depth := rfl

theorem visit_Assign_depth (lineno : Nat) (targets : List AssignTarget)
    (s : LState) : (visit_Assign lineno targets s).loop_depth = s.loop_depth := rfl

mutual

theorem visitNode_depth (n : Node) : ∀ (s : LState),
    (visitNode s n).loop_depth = s.loop_depth := by
  cases n with
  | classDef name lineno doc body =>
    intro s
    simp only [visitNode, visitList_depth body, visit_ClassDef_depth]
  | functionDef name lineno doc body =>
    intro s
    simp only [visitNode, visitList_depth body, visit_FunctionDef_depth]
  | asyncFunctionDef name lineno doc body =>
    intro s
    simp only [visitNode, visitList_depth body]
  | assign lineno targets =>
    intro s
    simp only [visitNode, visit_Assign_depth]
  | forStmt lineno body =>
    intro s
    simp only [visitNode, visitList_depth body, Nat.add_sub_cancel]
  | whileStmt lineno body =>
    intro s
    simp only [visitNode, visitList_depth body, Nat.add_sub_cancel]
  | other body =>
    intro s
    simp only [visitNode, visitList_depth body]

theorem visitList_depth (ns : List Node) : ∀ (s : LState),
    (visitList s ns).loop_depth = s.loop_depth := by
  cases ns with
  | nil => intro s; rfl
  | cons n rest =>
    intro s
    simp only [visitList, visitList_depth rest, visitNode_depth n]

end

/-- C3: the loop nesting depth counter of the Rule Visitor is incremented
before descending into the subtree of a looping construct (the body is visited in a
state with depth `s.loop_depth + 1`, after the conditional nesting finding
is recorded) and decremented on every exit path of the subtree visit — the
visit of the subtree is a total function and the decrement follows it
unconditionally, also when the descent records findings — so after visiting
any node (in particular any `For`/`While` node) the depth equals its prior
value. -/
theorem c3_loop_depth_symmetric :
    (∀ (n : Node) (s : LState), (visitNode s n).loop_depth = s.loop_depth) ∧
    (∀ (s : LState) (lineno : Nat) (body : List Node),
      visitNode s (.forStmt lineno body) =
        { visitList ⟨if s.loop_depth + 1 > 1 then
              s.issues ++ [⟨lineno, nestedForMsg lineno⟩] else s.issues,
            s.loop_depth + 1⟩ body with loop_depth := s.loop_depth }) ∧
    (∀ (s : LState) (lineno : Nat) (body : List Node),
      visitNode s (.whileStmt lineno body) =
        { visitList ⟨if s.loop_depth + 1 > 1 then
              s.issues ++ [⟨lineno, nestedWhileMsg lineno⟩] else s.issues,
            s.loop_depth + 1⟩ body with loop_depth := s.loop_depth }) := by
  refine ⟨fun n s => visitNode_depth n s, fun s lineno body => ?_, fun s lineno body => ?_⟩ <;>
    simp [visitNode, visitList_depth body, Nat.add_sub_cancel]

/-- C4: entering a `For` or `While` loop increments the depth counter and
fires exactly one nesting finding (at the line of the loop, with a per-kind
message) exactly when the resulting depth exceeds 1; consequently a loop
nested inside one loop yields exactly one nesting finding at the inner
line of the inner loop, a single non-nested loop yields none, and three levels of
nesting yield two nesting findings. -/
theorem c4_nested_loop_findings :
    (∀ (s : LState) (lineno : Nat) (body : List Node),
      visitNode s (.forStmt lineno body) =
        { visitList ⟨s.issues ++
              (if s.loop_depth + 1 > 1 then [⟨lineno, nestedForMsg lineno⟩] else []),
            s.loop_depth + 1⟩ body with loop_depth := s.loop_depth }) ∧
    (∀ (s : LState) (lineno : Nat) (body : List Node),
      visitNode s (.whileStmt lineno body) =
        { visitList ⟨s.issues ++
              (if s.loop_depth + 1 > 1 then [⟨lineno, nestedWhileMsg lineno⟩] else []),
            s.loop_depth + 1⟩ body with loop_depth := s.loop_depth }) ∧
    runLinter [.forStmt 1 [.forStmt 2 []]] = [⟨2, nestedForMsg 2⟩] ∧
    runLinter [.forStmt 1 [.whileStmt 2 []]] = [⟨2, nestedWhileMsg 2⟩] ∧
    runLinter [.forStmt 1 []] = [] ∧
    runLinter [.whileStmt 1 []] = [] ∧
    runLinter [.forStmt 1 [.forStmt 2 [.forStmt 3 []]]] =
      [⟨2, nestedForMsg 2⟩, ⟨3, nestedForMsg 3⟩] := by
  refine ⟨fun s lineno body => ?_, fun s lineno body => ?_, rfl, rfl, rfl, rfl, rfl⟩ <;>
    by_cases h : s.loop_depth + 1 > 1 <;>
    simp [visitNode, h, visitList_depth body, Nat.add_sub_cancel]

theorem capwordsRegex_vs_specPattern (s : String) :
    CAPWORDS_REGEX_match s = (specCapWordsMatch s && decide (2 ≤ s.length)) := by
  obtain ⟨data⟩ := s
  rcases data with _ | ⟨c, _ | ⟨d, rest⟩⟩
  · rfl
  · simp [CAPWORDS_REGEX_match, specCapWordsMatch, String.length]
  · have h2 : decide (2 ≤ (String.mk (c :: d :: rest)).length) = true := by
      simp [String.length]
    simp [CAPWORDS_REGEX_match, specCapWordsMatch, h2, Bool.and_assoc]

/-- C5 counterexample: the single-character class name `A` matches the
pattern `^[A-Z][A-Za-z0-9]*$` stated by the spec, yet the
`CAPWORDS_REGEX` (which demands at least two characters through its
mandatory `[a-zA-Z0-9]+` part) rejects it, so a class named `A` (given a
well-formed docstring to isolate the naming rule) does receive a naming
finding — the claim says it must receive none. -/
theorem c5_counterexample :
    specCapWordsMatch ("A") = true ∧
    runLinter [.classDef ("A") 1 (some ("Totally documented.")) []] =
      [⟨1, classNameMsg ("A") 1⟩] := by
  exact ⟨rfl, rfl⟩

/-- C5 amended: a type definition fires a naming finding at its line
exactly when its name does not match `CAPWORDS_REGEX`, and that regex
accepts precisely the names matching the pattern `^[A-Z][A-Za-z0-9]*$` of the spec
that in addition have at least two characters (single-character names such
as `A` are rejected and do fire; `MyClass123` does not fire, `myClass`
does). -/
theorem c5_class_naming_amended :
    (∀ (s : String), CAPWORDS_REGEX_match s =
      (specCapWordsMatch s && decide (2 ≤ s.length))) ∧
    (∀ (name : String) (lineno : Nat),
      runLinter [.classDef name lineno none []] =
        (if CAPWORDS_REGEX_match name then []
         else [⟨lineno, classNameMsg name lineno⟩]) ++
          [⟨lineno, classNoDocMsg name lineno⟩]) := by
  refine ⟨capwordsRegex_vs_specPattern, fun name lineno => ?_⟩
  by_cases h : CAPWORDS_REGEX_match name <;>
    simp [runLinter, visitList, visitNode, visit_ClassDef, get_docstring, pyFalsyStr, h]

theorem countEx_append (a b : List Finding) :
    countEx (a ++ b) = countEx a + countEx b := by
  simp [countEx, List.filter_append]

theorem countEx_cons (f : Finding) (l : List Finding) :
    countEx (f :: l) = (if isExistenceFinding f then 1 else 0) + countEx l := by
  simp only [countEx, List.filter_cons]
  split <;> simp [Nat.add_comm]

theorem countEx_classNameMsg (n : String) (a b : Nat) :
    countEx [⟨a, classNameMsg n b⟩] = 0 := rfl

theorem countEx_classNoDocMsg (n : String) (a b : Nat) :
    countEx [⟨a, classNoDocMsg n b⟩] = 0 := rfl

theorem countEx_funcExistsMsg (n : String) (a b : Nat) :
    countEx [⟨a, funcExistsMsg n b⟩] = 1 := rfl

theorem countEx_funcNameMsg (n : String) (a b : Nat) :
    countEx [⟨a, funcNameMsg n b⟩] = 0 := rfl

theorem countEx_funcNoDocMsg (n : String) (a b : Nat) :
    countEx [⟨a, funcNoDocMsg n b⟩] = 0 := rfl

theorem countEx_singleLetterMsg (n : String) (a b : Nat) :
    countEx [⟨a, singleLetterMsg n b⟩] = 0 := rfl

theorem countEx_nestedForMsg (a b : Nat) :
    countEx [⟨a, nestedForMsg b⟩] = 0 := rfl

theorem countEx_nestedWhileMsg (a b : Nat) :
    countEx [⟨a, nestedWhileMsg b⟩] = 0 := rfl

theorem countEx_docTooShortMsg_class (n : String) (a b k : Nat) :
    countEx [⟨a, docTooShortMsg ("Class \x27" ++ (n ++ "\x27")) b k⟩] = 0 := rfl

theorem countEx_docCapMsg_class (n : String) (a b : Nat) :
    countEx [⟨a, docCapMsg ("Class \x27" ++ (n ++ "\x27")) b⟩] = 0 := rfl

theorem countEx_docEndMsg_class (n : String) (a b : Nat) :
    countEx [⟨a, docEndMsg ("Class \x27" ++ (n ++ "\x27")) b⟩] = 0 := rfl

theorem countEx_docTooShortMsg_func (n : String) (a b k : Nat) :
    countEx [⟨a, docTooShortMsg ("Function \x27" ++ (n ++ "\x27")) b k⟩] = 0 := rfl

theorem countEx_docCapMsg_func (n : String) (a b : Nat) :
    countEx [⟨a, docCapMsg ("Function \x27" ++ (n ++ "\x27")) b⟩] = 0 := rfl

theorem countEx_docEndMsg_func (n : String) (a b : Nat) :
    countEx [⟨a, docEndMsg ("Function \x27" ++ (n ++ "\x27")) b⟩] = 0 := rfl

theorem isEx_classNameMsg (n : String) (a b : Nat) :
    isExistenceFinding ⟨a, classNameMsg n b⟩ = false := rfl

theorem isEx_classNoDocMsg (n : String) (a b : Nat) :
    isExistenceFinding ⟨a, classNoDocMsg n b⟩ = false := rfl

theorem isEx_funcExistsMsg (n : String) (a b : Nat) :
    isExistenceFinding ⟨a, funcExistsMsg n b⟩ = true := rfl

theorem isEx_funcNameMsg (n : String) (a b : Nat) :
    isExistenceFinding ⟨a, funcNameMsg n b⟩ = false := rfl

theorem isEx_funcNoDocMsg (n : String) (a b : Nat) :
    isExistenceFinding ⟨a, funcNoDocMsg n b⟩ = false := rfl

theorem isEx_singleLetterMsg (n : String) (a b : Nat) :
    isExistenceFinding ⟨a, singleLetterMsg n b⟩ = false := rfl

theorem isEx_nestedForMsg (a b : Nat) :
    isExistenceFinding ⟨a, nestedForMsg b⟩ = false := rfl

theorem isEx_nestedWhileMsg (a b : Nat) :
    isExistenceFinding ⟨a, nestedWhileMsg b⟩ = false := rfl

theorem isEx_docTooShortMsg_class (n : String) (a b k : Nat) :
    isExistenceFinding ⟨a, docTooShortMsg ("Class \x27" ++ (n ++ "\x27")) b k⟩ = false := rfl

theorem isEx_docCapMsg_class (n : String) (a b : Nat) :
    isExistenceFinding ⟨a, docCapMsg ("Class \x27" ++ (n ++ "\x27")) b⟩ = false := rfl

theorem isEx_docEndMsg_class (n : String) (a b : Nat) :
    isExistenceFinding ⟨a, docEndMsg ("Class \x27" ++ (n ++ "\x27")) b⟩ = false := rfl

theorem isEx_docTooShortMsg_func (n : String) (a b k : Nat) :
    isExistenceFinding ⟨a, docTooShortMsg ("Function \x27" ++ (n ++ "\x27")) b k⟩ = false := rfl

theorem isEx_docCapMsg_func (n : String) (a b : Nat) :
    isExistenceFinding ⟨a, docCapMsg ("Function \x27" ++ (n ++ "\x27")) b⟩ = false := rfl

theorem isEx_docEndMsg_func (n : String) (a b : Nat) :
    isExistenceFinding ⟨a, docEndMsg ("Function \x27" ++ (n ++ "\x27")) b⟩ = false := rfl

theorem countEx_nil : countEx [] = 0 := rfl

theorem countEx_check_docstring_class (d : String) (lineno : Nat) (name : String)
    (issues : List Finding) :
    countEx (check_docstring_rules d lineno ("Class \x27" ++ (name ++ "\x27")) issues) =
      countEx issues := by
  unfold check_docstring_rules
  split <;> split <;> split <;>
    simp [countEx_append, countEx_cons, countEx_nil, isEx_docTooShortMsg_class,
      isEx_docCapMsg_class, isEx_docEndMsg_class]

theorem countEx_check_docstring_func (d : String) (lineno : Nat) (name : String)
    (issues : List Finding) :
    countEx (check_docstring_rules d lineno ("Function \x27" ++ (name ++ "\x27")) issues) =
      countEx issues := by
  unfold check_docstring_rules
  split <;> split <;> split <;>
    simp [countEx_append, countEx_cons, countEx_nil, isEx_docTooShortMsg_func,
      isEx_docCapMsg_func, isEx_docEndMsg_func]

theorem countEx_visit_ClassDef (name : String) (lineno : Nat) (doc : Option String)
    (s : LState) :
    countEx (visit_ClassDef name lineno doc s).issues = countEx s.issues := by
  by_cases h1 : CAPWORDS_REGEX_match name <;>
  by_cases h2 : pyFalsyStr (get_docstring doc) <;>
    simp [visit_ClassDef, h1, h2, countEx_append, countEx_cons, countEx_nil,
      isEx_classNameMsg, isEx_classNoDocMsg, countEx_check_docstring_class]

theorem countEx_visit_FunctionDef (name : String) (lineno : Nat) (doc : Option String)
    (s : LState) :
    countEx (visit_FunctionDef name lineno doc s).issues = countEx s.issues + 1 := by
  by_cases h1 : SNAKE_CASE_REGEX_match name <;>
  by_cases h2 : pyFalsyStr (get_docstring doc) <;>
    simp [visit_FunctionDef, h1, h2, countEx_append, countEx_cons, countEx_nil,
      isEx_funcExistsMsg, isEx_funcNameMsg, isEx_funcNoDocMsg,
      countEx_check_docstring_func]

theorem countEx_assign_targets (lineno : Nat) (targets : List AssignTarget) :
    countEx (targets.filterMap (assign_target_issue lineno)) = 0 := by
  induction targets with
  | nil => rfl
  | cons t rest ih =>
    cases t with
    | nameT id =>
      by_cases hc : id.length == 1 && pyIsalpha id <;>
        simp [List.filterMap_cons, assign_target_issue, hc, countEx_cons,
          isEx_singleLetterMsg, ih]
    | attributeT => simpa [List.filterMap_cons, assign_target_issue] using ih
    | subscriptT => simpa [List.filterMap_cons, assign_target_issue] using ih
    | starredT => simpa [List.filterMap_cons, assign_target_issue] using ih
    | tupleT elts => simpa [List.filterMap_cons, assign_target_issue] using ih

mutual

theorem countEx_visitNode (n : Node) : ∀ (s : LState),
    countEx (visitNode s n).issues = countEx s.issues + countFunctionDefs n := by
  cases n with
  | classDef name lineno doc body =>
    intro s
    simp only [visitNode, countFunctionDefs, countEx_visitList body,
      countEx_visit_ClassDef]
  | functionDef name lineno doc body =>
    intro s
    simp only [visitNode, countFunctionDefs, countEx_visitList body,
      countEx_visit_FunctionDef]
    omega
  | asyncFunctionDef name lineno doc body =>
    intro s
    simp only [visitNode, countFunctionDefs, countEx_visitList body]
  | assign lineno targets =>
    intro s
    simp only [visitNode, countFunctionDefs, visit_Assign, countEx_append,
      countEx_assign_targets]
  | forStmt lineno body =>
    intro s
    by_cases h : s.loop_depth + 1 > 1 <;>
      simp [visitNode, countFunctionDefs, countEx_visitList body, h,
        countEx_append, countEx_cons, countEx_nil, isEx_nestedForMsg]
  | whileStmt lineno body =>
    intro s
    by_cases h : s.loop_depth + 1 > 1 <;>
      simp [visitNode, countFunctionDefs, countEx_visitList body, h,
        countEx_append, countEx_cons, countEx_nil, isEx_nestedWhileMsg]
  | other body =>
    intro s
    simp only [visitNode, countFunctionDefs, countEx_visitList body]

theorem countEx_visitList (ns : List Node) : ∀ (s : LState),
    countEx (visitList s ns).issues = countEx s.issues + countFunctionDefsList ns := by
  cases ns with
  | nil => intro s; simp [visitList, countFunctionDefsList]
  | cons n rest =>
    intro s
    simp only [visitList, countFunctionDefsList, countEx_visitList rest,
      countEx_visitNode n]
    omega

end

/-- C7 counterexample: an `async def` is a routine definition, but
`SnarkLinter` has no `visit_AsyncFunctionDef` method, so the dispatcher
falls back to `generic_visit` and an async routine yields no existence
finding at all (in fact no finding of any kind) — the claim says every
routine form unconditionally yields exactly one existence finding. -/
theorem c7_counterexample :
    runLinter [.asyncFunctionDef ("fetch_data") 1 none []] = [] := rfl

/-- C7 amended: every plain (synchronous) function definition contributes
exactly one existence finding — the report of any tree contains exactly as
many existence findings as the tree has `FunctionDef` nodes, and a lone
undocumented plain function yields its existence finding (at its line)
followed by its missing-docstring finding — but `async def` routine
definitions are exempt: they are not visited by any rule and contribute
none. -/
theorem c7_function_existence_amended :
    (∀ (tree : List Node), countEx (runLinter tree) = countFunctionDefsList tree) ∧
    (∀ (name : String) (lineno : Nat),
      runLinter [.functionDef name lineno (some ("Does the stuff.")) []] =
        (if SNAKE_CASE_REGEX_match name then [⟨lineno, funcExistsMsg name lineno⟩]
         else [⟨lineno, funcExistsMsg name lineno⟩, ⟨lineno, funcNameMsg name lineno⟩])) ∧
    (∀ (name : String) (lineno : Nat) (doc : Option String) (body : List Node),
      runLinter [.asyncFunctionDef name lineno doc body] = runLinter body) := by
  refine ⟨fun tree => ?_, fun name lineno => ?_, fun name lineno doc body => rfl⟩
  · have h := countEx_visitList tree ⟨[], 0⟩
    simpa [runLinter, countEx_nil] using h
  · have hdoc : get_docstring (some ("Does the stuff.")) = some ("Does the stuff.") := rfl
    have hfalsy : pyFalsyStr (some ("Does the stuff.")) = false := rfl
    have hlen : ¬ (("Does the stuff.").length < 10) := by decide
    have hup : (!(("Does the stuff.").data.headD 'A').isUpper) = false := by decide
    have hend : (!((['.', '!', '?']).contains (("Does the stuff.").data.getLastD 'A'))) = false := by
      decide
    by_cases h : SNAKE_CASE_REGEX_match name <;>
      simp [runLinter, visitList, visitNode, visit_FunctionDef, hdoc, hfalsy, h,
        check_docstring_rules, hlen, hup, hend]

/-- C9 counterexample: `x = y = 5` is a single `Assign` node with two
`Name` targets, and `visit_Assign` iterates over all of `node.targets`, so
the multi-target assignment fires one single-letter finding per target —
two findings — where the claim says it fires none. -/
theorem c9_counterexample :
    runLinter [.assign 1 [.nameT ("x"), .nameT ("y")]] =
      [⟨1, singleLetterMsg ("x") 1⟩, ⟨1, singleLetterMsg ("y") 1⟩] := rfl

/-- C9 amended: the single-letter check inspects every assignment target
that is a simple name, firing one finding (at the line of the assignment) per
single-letter alphabetic identifier — so `x = 5` fires one, multi-target
`x = y = 5` fires one per target (two), while tuple, attribute, subscript
and starred targets are skipped; augmented assignment is a different node
kind with no visitor method and fires none. -/
theorem c9_single_letter_amended :
    (∀ (id : String) (lineno : Nat),
      runLinter [.assign lineno [.nameT id]] =
        if id.length == 1 && pyIsalpha id then [⟨lineno, singleLetterMsg id lineno⟩]
        else []) ∧
    (∀ (lineno : Nat) (targets : List AssignTarget) (s : LState),
      visitNode s (.assign lineno targets) =
        { s with issues := s.issues ++ targets.filterMap (assign_target_issue lineno) }) ∧
    runLinter [.assign 1 [.nameT ("x"), .nameT ("y")]] =
      [⟨1, singleLetterMsg ("x") 1⟩, ⟨1, singleLetterMsg ("y") 1⟩] ∧
    runLinter [.assign 1 [.tupleT [.nameT ("a"), .nameT ("b")]]] = [] ∧
    runLinter [.assign 1 [.attributeT]] = [] ∧
    runLinter [.assign 1 [.subscriptT]] = [] ∧
    runLinter [.assign 1 [.nameT ("xy")]] = [] := by
  refine ⟨fun id lineno => ?_, fun lineno targets s => rfl, rfl, rfl, rfl, rfl, rfl⟩
  by_cases hc : id.length == 1 && pyIsalpha id <;>
    simp [runLinter, visitList, visitNode, visit_Assign, List.filterMap_cons,
      assign_target_issue, hc]

/-- C10 counterexample: the leading literal of the class consists only of
whitespace (a space, a newline, a space), yet `inspect.cleandoc` normalizes
it to a single space — a non-empty string — so the missing-docstring
finding does not fire and instead all three docstring-shape sub-checks
fire. -/
theorem c10_counterexample :
    (" \n ").data.all pyIsSpace = true ∧
    pyCleandoc (" \n ") = " " ∧
    runLinter [.classDef ("Good") 1 (some (" \n ")) []] =
      [⟨1, docTooShortMsg ("Class \x27" ++ ("Good" ++ "\x27")) 1 1⟩,
       ⟨1, docCapMsg ("Class \x27" ++ ("Good" ++ "\x27")) 1⟩,
       ⟨1, docEndMsg ("Class \x27" ++ ("Good" ++ "\x27")) 1⟩] := by
  exact ⟨rfl, rfl, rfl⟩

/-- C10 amended: a type or routine definition whose leading string literal
is normalized to the empty string by the docstring accessor (true for the
empty literal and for single-line whitespace-only literals, possibly
followed by bare newlines, but not for every whitespace-only literal —
a whitespace line after a newline survives `cleandoc`) is treated exactly
as if no docstring were present: the missing-docstring finding fires and
no shape sub-check fires. -/
theorem c10_docstring_normalization_amended :
    (∀ (ws name : String) (lineno : Nat) (body : List Node) (s : LState),
      pyCleandoc ws = "" →
        visitNode s (.classDef name lineno (some ws) body) =
          visitNode s (.classDef name lineno none body)) ∧
    (∀ (ws name : String) (lineno : Nat) (body : List Node) (s : LState),
      pyCleandoc ws = "" →
        visitNode s (.functionDef name lineno (some ws) body) =
          visitNode s (.functionDef name lineno none body)) ∧
    pyCleandoc ("") = "" ∧
    pyCleandoc ("   ") = "" ∧
    pyCleandoc ("\t") = "" ∧
    pyCleandoc (" \n\n") = "" ∧
    runLinter [.classDef ("Good") 1 (some ("   ")) []] = [⟨1, classNoDocMsg ("Good") 1⟩] := by
  refine ⟨fun ws name lineno body s h => ?_, fun ws name lineno body s h => ?_,
    rfl, rfl, rfl, rfl, rfl⟩ <;>
    simp [visitNode, visit_ClassDef, visit_FunctionDef, get_docstring, pyFalsyStr, h]

/-- C10 witness: instantiating the amended normalization at the
single-line whitespace literal. -/
theorem c10_witness :
    pyCleandoc ("   ") = "" ∧
    visitNode ⟨[], 0⟩ (.classDef ("Good") 1 (some ("   ")) []) =
      visitNode ⟨[], 0⟩ (.classDef ("Good") 1 none []) :=
  ⟨rfl, c10_docstring_normalization_amended.1 ("   ") ("Good") 1 [] ⟨[], 0⟩ rfl⟩

/-- C8: for a non-blank physical line, the length pass fires exactly when
the raw line (trailing newline stripped) exceeds 72 characters if its
left-trimmed form starts with a comment marker, and exceeds 79 characters
otherwise; in particular a 73-character comment line fires, a 72-character
one does not, an 80-character code line fires and a 79-character one does
not. -/
theorem c8_line_length_limits :
    (∀ (line_no : Nat) (line : String),
      pyStrip (pyRstripNl line) ≠ "" →
        (line_length_issue (line_no, line)).isSome =
          (if leadsWith [ '#' ] (pyLstrip (pyRstripNl line)).data
           then decide ((pyRstripNl line).length > 72)
           else decide ((pyRstripNl line).length > 79))) ∧
    find_line_length_issues [⟨'#' :: List.replicate 72 'x'⟩] =
      [⟨1, lineLongCommentMsg 1 73⟩] ∧
    find_line_length_issues [⟨'#' :: List.replicate 71 'x'⟩] = [] ∧
    find_line_length_issues [⟨List.replicate 80 'x'⟩] = [⟨1, lineLongMsg 1 80⟩] ∧
    find_line_length_issues [⟨List.replicate 79 'x'⟩] = [] := by
  refine ⟨fun line_no line h => ?_, by decide, by decide, by decide, by decide⟩
  have hb : (pyStrip (pyRstripNl line) == "") = false := by
    simpa using h
  by_cases hc : leadsWith [ '#' ] (pyLstrip (pyRstripNl line)).data <;>
  by_cases hl : (pyRstripNl line).length > 72 <;>
  by_cases hl2 : (pyRstripNl line).length > 79 <;>
    simp [line_length_issue, hb, hc, hl, hl2]

/-- C8 witness: the general limit rule instantiated at the 73-character
comment line, which fires. -/
theorem c8_witness :
    pyStrip (pyRstripNl (⟨'#' :: List.replicate 72 'x'⟩ : String)) ≠ "" ∧
    (line_length_issue (1, (⟨'#' :: List.replicate 72 'x'⟩ : String))).isSome = true := by
  have h : pyStrip (pyRstripNl (⟨'#' :: List.replicate 72 'x'⟩ : String)) ≠ "" := by decide
  refine ⟨h, ?_⟩
  rw [c8_line_length_limits.1 1 _ h]
  decide

/-- C2: whenever parsing fails, the engine returns exactly the one
synthetic finding — no tree, comment, line-length or import pass
contributes anything — and its line is the parser-reported line when one
was reported (Python truthiness also maps a reported 0 to 1, but
`SyntaxError.lineno` is 1-based) or line 1 when the parser reports no
line. -/
theorem c2_parse_failure (src : SourceFile) (e : ParseError)
    (h : src.parseResult = .error e) :
    run_snark_linter src = .ok [⟨syntheticLine e, parseFailMsg (syntheticLine e)⟩] ∧
    (∀ (l : Nat), e.lineno = some l → l ≠ 0 → syntheticLine e = l) ∧
    (e.lineno = none → syntheticLine e = 1) := by
  refine ⟨?_, ?_, ?_⟩
  · simp [run_snark_linter, h, syntheticLine]
  · intro l hl hl0
    have hb : (l == 0) = false := by simpa using hl0
    simp [syntheticLine, hl, hb]
  · intro h0
    simp [syntheticLine, h0]

/-- C2 witness: the engine applied to the concrete unparsable file. -/
theorem c2_witness :
    srcParseErr.parseResult = .error ⟨some 1⟩ ∧
    run_snark_linter srcParseErr = .ok [⟨1, parseFailMsg 1⟩] :=
  ⟨rfl, (c2_parse_failure srcParseErr ⟨some 1⟩ rfl).1⟩

/-- C6 counterexample: on a file that parses but whose byte stream the
tokenizer rejects, the engine returns the tokenizer error — it aborts the
whole run instead of degrading the comment pass to "no findings", and the
finding of the line-length pass (line 2 is 83 characters long) is lost with it.
The claim says the run must survive and the other passes must still
contribute. -/
theorem c6_counterexample :
    run_snark_linter srcTokFail = .error ("unknown encoding: bogus") ∧
    find_line_length_issues srcTokFail.lines = [⟨2, lineLongMsg 2 83⟩] := by
  exact ⟨rfl, rfl⟩

/-- C6 amended: `find_comment_issues` iterates the tokenizer with no
exception handler, so if the source parses but tokenizing fails, the
tokenizer error propagates out of the engine: the run aborts with that
error and no pass — tree-based or line-based — contributes any finding to
a returned report. -/
theorem c6_tokenizer_failure_amended (src : SourceFile) (tree : List Node) (e : String)
    (h1 : src.parseResult = .ok tree) (h2 : src.tokens = .error e) :
    run_snark_linter src = .error e := by
  simp [run_snark_linter, find_comment_issues, h1, h2]

/-- C6 witness: the amended propagation rule instantiated at the concrete
file with the bogus coding cookie. -/
theorem c6_witness :
    srcTokFail.parseResult = .ok [.assign 2 [.nameT ("value_banana")]] ∧
    srcTokFail.tokens = .error ("unknown encoding: bogus") ∧
    run_snark_linter srcTokFail = .error ("unknown encoding: bogus") :=
  ⟨rfl, rfl, c6_tokenizer_failure_amended srcTokFail _ _ rfl rfl⟩

theorem mem_insertFinding (f g : Finding) (l : List Finding)
    (hg : g ∈ insertFinding f l) : g = f ∨ g ∈ l := by
  induction l with
  | nil => simpa [insertFinding] using hg
  | cons a as ih =>
    simp only [insertFinding] at hg
    split at hg
    · rcases List.mem_cons.mp hg with h | h
      · exact Or.inl h
      · exact Or.inr h
    · rcases List.mem_cons.mp hg with h | h
      · exact Or.inr (List.mem_cons.mpr (Or.inl h))
      · rcases ih h with h2 | h2
        · exact Or.inl h2
        · exact Or.inr (List.mem_cons.mpr (Or.inr h2))

theorem pairwise_insertFinding (f : Finding) (l : List Finding)
    (hl : l.Pairwise (fun a b => a.line ≤ b.line)) :
    (insertFinding f l).Pairwise (fun a b => a.line ≤ b.line) := by
  induction l with
  | nil => simp [insertFinding]
  | cons a as ih =>
    rcases List.pairwise_cons.mp hl with ⟨ha, has⟩
    simp only [insertFinding]
    split
    · rename_i hle
      refine List.pairwise_cons.mpr ⟨?_, hl⟩
      intro g hg
      rcases List.mem_cons.mp hg with rfl | hg2
      · exact hle
      · exact Nat.le_trans hle (ha g hg2)
    · rename_i hgt
      refine List.pairwise_cons.mpr ⟨?_, ih has⟩
      intro g hg
      rcases mem_insertFinding f g as hg with rfl | hg2
      · omega
      · exact ha g hg2

theorem pairwise_sortFindings (l : List Finding) :
    (sortFindings l).Pairwise (fun a b => a.line ≤ b.line) := by
  induction l with
  | nil => simp [sortFindings]
  | cons f fs ih => exact pairwise_insertFinding f _ ih

theorem filter_insertFinding (f : Finding) (l : List Finding) (c : Nat) :
    (insertFinding f l).filter (fun g => g.line == c) =
      if f.line == c then f :: l.filter (fun g => g.line == c)
      else l.filter (fun g => g.line == c) := by
  induction l with
  | nil => by_cases hf : (f.line == c) <;> simp [insertFinding, List.filter, hf]
  | cons a as ih =>
    simp only [insertFinding]
    split
    · by_cases hf : (f.line == c) <;> simp [List.filter_cons, hf]
    · rename_i hgt
      by_cases hf : (f.line == c)
      · have hfc : f.line = c := by simpa using hf
        have ha : (a.line == c) = false := by
          have : a.line < f.line := Nat.lt_of_not_le hgt
          simp only [beq_eq_false_iff_ne, ne_eq]
          omega
        simp [List.filter_cons, ha, ih, hf]
      · simp [List.filter_cons, ih, hf]

theorem filter_sortFindings (l : List Finding) (c : Nat) :
    (sortFindings l).filter (fun g => g.line == c) = l.filter (fun g => g.line == c) := by
  induction l with
  | nil => rfl
  | cons f fs ih =>
    simp only [sortFindings, filter_insertFinding, ih]
    by_cases hf : (f.line == c) <;> simp [List.filter_cons, hf]

/-- C1: on every input that parses (and tokenizes, so that a report is
returned at all), the report is the stable line-sort of the pass
concatenation {tree rules, comment scan, length scan, import scan}: it is
sorted non-decreasing by line number, and for every line number the
findings carrying it appear in exactly the order the concatenation
produced them — so equal-line findings keep the fixed pass order. -/
theorem c1_sorted_stable (src : SourceFile) (tree : List Node) (toks : List Token)
    (h1 : src.parseResult = .ok tree) (h2 : src.tokens = .ok toks) :
    run_snark_linter src = .ok (sortFindings (passConcat src tree toks)) ∧
    (sortFindings (passConcat src tree toks)).Pairwise (fun a b => a.line ≤ b.line) ∧
    ∀ (c : Nat),
      (sortFindings (passConcat src tree toks)).filter (fun g => g.line == c) =
        (passConcat src tree toks).filter (fun g => g.line == c) := by
  refine ⟨?_, pairwise_sortFindings _, fun c => filter_sortFindings _ c⟩
  simp [run_snark_linter, find_comment_issues, h1, h2, passConcat]

/-- C1 witness: the sortedness and stability statement instantiated at the
concrete well-formed file. -/
theorem c1_witness :
    srcOk.parseResult = .ok okTree ∧ srcOk.tokens = .ok okToks ∧
    run_snark_linter srcOk = .ok (sortFindings (passConcat srcOk okTree okToks)) ∧
    (sortFindings (passConcat srcOk okTree okToks)).Pairwise
      (fun a b => a.line ≤ b.line) ∧
    ∀ (c : Nat),
      (sortFindings (passConcat srcOk okTree okToks)).filter (fun g => g.line == c) =
        (passConcat srcOk okTree okToks).filter (fun g => g.line == c) := by
  have h := c1_sorted_stable srcOk okTree okToks rfl rfl
  exact ⟨rfl, rfl, h.1, h.2.1, h.2.2⟩
